import Mathlib

/-!
Verification of the task-record core of the Task-Manager app
(`Source/task.py` and `Source/helpers.py`), shallowly embedded in Lean.

Python `datetime` values are modelled by the `DateTime` structure below
(calendar fields plus time of day, second granularity).  Comparison and
subtraction of `datetime`s are timeline operations, embedded via `toSecs`,
the number of seconds since the civil epoch 1970-01-01 (computed with the
standard civil-calendar day-count algorithm).  Python `None` is modelled
with `Option`, an uncaught exception with the `none` of an outer `Option`,
and a `print`ed warning with a returned `Bool` flag (`true` = the update
was accepted, `false` = the warning path ran).
-/

namespace TaskApp

/-- Model of a Python `datetime.datetime` value (second granularity;
Python additionally stores microseconds, which no claim depends on). -/
structure DateTime where
  year : Nat
  month : Nat
  day : Nat
  hour : Nat
  minute : Nat
  second : Nat
deriving DecidableEq

/-- Day count of a civil date from 1970-01-01 (Gregorian, the standard
era-based algorithm).  All our years are ≥ 1, so `Nat` arithmetic suffices
below the final subtraction. -/
def daysFromCivil (y m d : Nat) : Int :=
  let yAdj := if m ≤ 2 then y - 1 else y
  let era := yAdj / 400
  let yoe := yAdj - era * 400
  let mp := if m > 2 then m - 3 else m + 9
  let doy := (153 * mp + 2) / 5 + d - 1
  let doe := yoe * 365 + yoe / 4 - yoe / 100 + doy
  (era : Int) * 146097 + (doe : Int) - 719468

/-- Seconds since 1970-01-01 00:00:00; embeds Python `datetime` comparison
and subtraction (both are timeline operations). -/
def DateTime.toSecs (t : DateTime) : Int :=
  daysFromCivil t.year t.month t.day * 86400
    + (t.hour : Int) * 3600 + (t.minute : Int) * 60 + (t.second : Int)

/-- Gregorian leap-year rule, as used by Python's calendar validation. -/
def isLeapYear (y : Nat) : Bool :=
  y % 4 == 0 && (y % 100 != 0 || y % 400 == 0)

/-- Number of days in a month, as used by Python's calendar validation. -/
def daysInMonth (y m : Nat) : Nat :=
  if m = 2 then (if isLeapYear y then 29 else 28)
  else if m = 4 ∨ m = 6 ∨ m = 9 ∨ m = 11 then 30 else 31

/-- The field constraints every Python `datetime` satisfies by
construction (its constructor rejects anything else). -/
def ValidDate (t : DateTime) : Prop :=
  1 ≤ t.month ∧ t.month ≤ 12 ∧ 1 ≤ t.day ∧ t.day ≤ daysInMonth t.year t.month

instance (t : DateTime) : Decidable (ValidDate t) := by
  unfold ValidDate; infer_instance

/-- A `datetime` produced by `strptime` with a date-only format: time of
day is zero. -/
def MidnightDate (t : DateTime) : Prop :=
  t.hour = 0 ∧ t.minute = 0 ∧ t.second = 0

instance (t : DateTime) : Decidable (MidnightDate t) := by
  unfold MidnightDate; infer_instance

/-- Value of a decimal digit character, `none` on a non-digit. -/
def digitVal (c : Char) : Option Nat :=
  if '0' ≤ c ∧ c ≤ '9' then some (c.toNat - 48) else none

/-- Greedily parse one or two decimal digits (the regex `\d{1,2}` that
Python `strptime` compiles for each of `%d`, `%m`, `%y`), returning the
value and the unconsumed characters.  Greedy matching agrees with the
backtracking regex here because a digit can never double as the literal
`/` separator. -/
def parseComp : List Char → Option (Nat × List Char)
  | [] => none
  | [c] => (digitVal c).map (fun a => (a, []))
  | c1 :: c2 :: rest =>
    match digitVal c1, digitVal c2 with
    | some a, some b => some (10 * a + b, rest)
    | some a, none => some (a, c2 :: rest)
    | none, _ => none

/-- `datetime.strptime(s, "%d/%m/%y")`: day (1-2 digits), `/`, month (1-2
digits), `/`, year (exactly two digits, the regex `\d\d` Python compiles
for `%y`), nothing after; Python maps year 0–68 to 2000–2068 and 69–99 to
1969–1999, and validates day and month ranges against the calendar.
`none` models the `ValueError` raised on any mismatch. -/
def strptimeDMY (s : String) : Option DateTime :=
  match parseComp s.toList with
  | some (d, '/' :: r1) =>
    match parseComp r1 with
    | some (m, '/' :: [y1, y2]) =>
      match digitVal y1, digitVal y2 with
      | some a, some b =>
        let y := if 10 * a + b ≤ 68 then 2000 + (10 * a + b) else 1900 + (10 * a + b)
        if 1 ≤ m ∧ m ≤ 12 ∧ 1 ≤ d ∧ d ≤ daysInMonth y m then
          some ⟨y, m, d, 0, 0, 0⟩
        else none
      | _, _ => none
    | _ => none
  | _ => none

/-- Zero-pad a number to two digits, as `strftime` does for `%d`, `%m`,
`%y`. -/
def pad2 (n : Nat) : String :=
  if n < 10 then "0" ++ toString n else toString n

/-- `t.strftime("%d/%m/%y")`: zero-padded day, month and year modulo
100. -/
def strftimeDMY (t : DateTime) : String :=
  pad2 t.day ++ "/" ++ pad2 t.month ++ "/" ++ pad2 (t.year % 100)

/-- The ASCII whitespace characters removed by Python `str.strip()`
(Python also strips some Unicode spaces; no claim involves those). -/
def pyIsSpace (c : Char) : Bool :=
  c == ' ' || c == '\t' || c == '\n' || c == '\r' || c == '\x0b' || c == '\x0c'

/-- Python `s.strip()`: remove leading and trailing whitespace. -/
def pyStrip (s : String) : String :=
  String.mk (((s.toList.dropWhile pyIsSpace).reverse.dropWhile pyIsSpace).reverse)

/-- The `Task` object of `task.py` (its seven instance attributes). -/
structure Task where
  description : String
  completed : Bool
  due_date : Option DateTime
  priority : Int
  additional_info : Option String
  created_date : DateTime
  deleted : Bool
deriving DecidableEq

/-- `Task.__init__` (task.py:15-36): stores each argument; a `None`
`created_date` defaults to the current time (`created_date or
datetime.now()` — a `datetime` is never falsy). -/
def Task.init (now : DateTime) (description : String) (completed : Bool)
    (due_date : Option DateTime) (priority : Int)
    (additional_info : Option String) (created_date : Option DateTime)
    (deleted : Bool) : Task :=
  { description := description
    completed := completed
    due_date := due_date
    priority := priority
    additional_info := additional_info
    created_date := created_date.getD now
    deleted := deleted }

/-- `PRIORITY_LEVELS` (helpers.py:14): `{1: "Low", 2: "Normal", 3: "High"}`. -/
def PRIORITY_LEVELS : List (Int × String) :=
  [(1, "Low"), (2, "Normal"), (3, "High")]

/-- `Task.mark_completed` (task.py:38-47): sets the flag, or warns when
already completed (flag `false`). -/
def Task.mark_completed (t : Task) : Task × Bool :=
  if t.completed then (t, false) else ({ t with completed := true }, true)

/-- `Task.reschedule` (task.py:49-60): parse the string with
`"%d/%m/%y"`; on success store the date, on `ValueError` print a warning
(flag `false`) and leave the task unchanged. -/
def Task.reschedule (t : Task) (new_due_date_str : String) : Task × Bool :=
  match strptimeDMY new_due_date_str with
  | some d => ({ t with due_date := some d }, true)
  | none => (t, false)

/-- `Task.update_priority` (task.py:62-72): accept the value only when it
is a key of `PRIORITY_LEVELS`, otherwise print a warning (flag `false`)
and leave the task unchanged. -/
def Task.update_priority (t : Task) (new_priority : Int) : Task × Bool :=
  if PRIORITY_LEVELS.any (fun kv => kv.1 == new_priority) then
    ({ t with priority := new_priority }, true)
  else (t, false)

/-- `Task.update_description` (task.py:74-84): accept only text that is
non-empty after stripping (Python truthiness of `s.strip()`), storing the
original unstripped text; otherwise print a warning (flag `false`). -/
def Task.update_description (t : Task) (new_description : String) : Task × Bool :=
  if pyStrip new_description ≠ "" then
    ({ t with description := new_description }, true)
  else (t, false)

/-- `Task.update_additional_info` (task.py:86-93): store the text when it
is truthy and non-whitespace, else normalize to `None`. -/
def Task.update_additional_info (t : Task) (new_info : String) : Task :=
  { t with additional_info :=
      if new_info ≠ "" ∧ pyStrip new_info ≠ "" then some new_info else none }

/-- One JSON object of the persisted file, as `Task.from_dict` reads it.
A field is `none` when the key is missing.  For `due_date` and
`created_date` the code reads with `.get`, which returns `None` both for
a missing key and a stored `null`, so a single `Option String` models the
value faithfully; `additional_info` is read with `data["additional_info"]`
(missing key raises), so presence and nullability are tracked
separately. -/
structure TaskRecord where
  description : Option String
  completed : Option Bool
  due_date : Option String
  priority : Option Int
  additional_info : Option (Option String)
  created_date : Option String
  deleted : Option Bool
deriving DecidableEq

/-- `Task.to_dict` (task.py:95-109): every key is written; dates are
rendered with `strftime("%d/%m/%y")`, a `None` due date as `null` (a
`datetime` is never falsy, so `some` dates are always rendered). -/
def Task.to_dict (t : Task) : TaskRecord :=
  { description := some t.description
    completed := some t.completed
    due_date := t.due_date.map strftimeDMY
    priority := some t.priority
    additional_info := some t.additional_info
    created_date := some (strftimeDMY t.created_date)
    deleted := some t.deleted }

/-- `datetime.strptime(s, "%d/%m/%y") if s else None` (task.py:123-124):
a missing/`null`/empty string is falsy and yields `None`; otherwise a
failed parse raises (outer `none`). -/
def parseOptDate : Option String → Option (Option DateTime)
  | none => some none
  | some s => if s = "" then some none else (strptimeDMY s).map some

/-- `Task.from_dict` (task.py:111-133): parse the two optional date
strings, then look up `description`, `completed`, `priority` and
`additional_info` (a missing key raises `KeyError`, modelled by the outer
`none`); `deleted` defaults to `False` via `.get`.  The result is built
with `Task.__init__`, so a missing `created_date` defaults to `now`. -/
def Task.from_dict (now : DateTime) (data : TaskRecord) : Option Task :=
  match parseOptDate data.due_date, parseOptDate data.created_date,
      data.description, data.completed, data.priority, data.additional_info with
  | some due, some created, some desc, some comp, some prio, some info =>
    some (Task.init now desc comp due prio info created (data.deleted.getD false))
  | _, _, _, _, _, _ => none

/-- `get_task_color` (helpers.py:44-65): completed tasks are green; a due
task is red when overdue, orange when due within 30 days (inclusive),
blue otherwise; no due date is white.  `now` is the `datetime.now()`
captured inside the function; comparison and subtraction of `datetime`s
are embedded through `DateTime.toSecs` (30 days = 2592000 seconds). -/
def get_task_color (task : Task) (now : DateTime) : String :=
  if task.completed then "green"
  else
    match task.due_date with
    | some due =>
      if due.toSecs < now.toSecs then "red"
      else if due.toSecs - now.toSecs ≤ 2592000 then "orange"
      else "blue"
    | none => "white"

/-- The `color_order` table of `sort_tasks` (helpers.py:74). -/
def color_order : List (String × Nat) :=
  [("red", 0), ("orange", 1), ("blue", 2), ("white", 3), ("green", 4)]

/-- `color_order.get(get_task_color(x), 5)` (helpers.py:78). -/
def colorRank (now : DateTime) (task : Task) : Nat :=
  (((color_order.find? (fun kv => kv.1 == get_task_color task now)).map
    Prod.snd).getD 5)

/-- The sort key of `sort_tasks` (helpers.py:77-80): the color rank and
the negated priority. -/
def taskKey (now : DateTime) (task : Task) : Nat × Int :=
  (colorRank now task, -task.priority)

/-- Lexicographic `≤` on sort keys: Python's stable `sorted(key=...)`
orders by exactly this relation on the key tuples. -/
def taskKeyLe (now : DateTime) (a b : Task) : Bool :=
  decide ((taskKey now a).1 < (taskKey now b).1
    ∨ ((taskKey now a).1 = (taskKey now b).1
      ∧ (taskKey now a).2 ≤ (taskKey now b).2))

/-- `sort_tasks` (helpers.py:67-81): Python's `sorted` is a stable merge
sort by the key tuple, embedded as `List.mergeSort` with the
lexicographic key comparison. -/
def sort_tasks (now : DateTime) (tasks : List Task) : List Task :=
  tasks.mergeSort (taskKeyLe now)

/-- The states the persisted `tasks.json` can present to `load_tasks`:
the file is missing (`FileNotFoundError`), its text is not decodable
JSON (`json.JSONDecodeError`), or it decodes to a list of records. -/
inductive Document where
  | missing : Document
  | corrupt : Document
  | records : List TaskRecord → Document
deriving DecidableEq

/-- `load_tasks` (helpers.py:19-32): a missing file or a JSON decode
error is caught and yields `[]`; otherwise every record is passed through
`Task.from_dict`, and any exception raised there (e.g. `KeyError` on a
missing mandatory key, `ValueError` on a bad date string) is *not*
caught: it propagates, modelled by the outer `none`. -/
def load_tasks (now : DateTime) : Document → Option (List Task)
  | Document.missing => some []
  | Document.corrupt => some []
  | Document.records rs => rs.mapM (Task.from_dict now)

/-- The set of priorities `{1, 2, 3}` named by the spec (the keys of
`PRIORITY_LEVELS`). -/
def ValidPriority (p : Int) : Prop := p = 1 ∨ p = 2 ∨ p = 3

instance (p : Int) : Decidable (ValidPriority p) := by
  unfold ValidPriority; infer_instance

/-- The membership test `new_priority in PRIORITY_LEVELS` checks exactly
`ValidPriority`. -/
lemma priority_mem_iff (p : Int) :
    PRIORITY_LEVELS.any (fun kv => kv.1 == p) = true ↔ ValidPriority p := by
  simp [PRIORITY_LEVELS, ValidPriority]
  omega

/-- A reference instant used by the concrete witnesses: 2025-01-01. -/
def refTime : DateTime := ⟨2025, 1, 1, 0, 0, 0⟩

/-- A plain incomplete task without a due date. -/
def baseTask : Task := ⟨"buy milk", false, none, 2, none, refTime, false⟩

/-- A completed task whose due date (2020) is long past. -/
def overdueDoneTask : Task :=
  ⟨"done", true, some ⟨2020, 1, 1, 0, 0, 0⟩, 2, none, ⟨2020, 1, 1, 0, 0, 0⟩, false⟩

/-- An incomplete task due exactly 30 days after `refTime`. -/
def dueSoonTask : Task :=
  ⟨"soon", false, some ⟨2025, 1, 31, 0, 0, 0⟩, 2, none, refTime, false⟩

/-- An incomplete task due 30 days and one second after `refTime`. -/
def dueLaterTask : Task :=
  ⟨"later", false, some ⟨2025, 1, 31, 0, 0, 1⟩, 2, none, refTime, false⟩

/-- An incomplete task due one day before `refTime`. -/
def overdueTask : Task :=
  ⟨"late", false, some ⟨2024, 12, 31, 0, 0, 0⟩, 2, none, refTime, false⟩

/-- Claim C2: for every task and every reference time, a completed task
classifies as `"green"` (Completed) — never `"red"` (Overdue) — whatever
its due date. -/
theorem completed_task_classifies_green (t : Task) (now : DateTime)
    (h : t.completed = true) :
    get_task_color t now = "green" ∧ get_task_color t now ≠ "red" := by
  refine ⟨?_, ?_⟩ <;> simp [get_task_color, h]

/-- Witness for C2: a completed task whose due date (2020) precedes the
reference time (2025) is green, not red. -/
theorem completed_task_classifies_green_witness :
    get_task_color overdueDoneTask refTime = "green"
    ∧ get_task_color overdueDoneTask refTime ≠ "red" :=
  completed_task_classifies_green overdueDoneTask refTime rfl

/-- Claim C3: for an incomplete task with a due date, a gap of exactly 30
days (2592000 seconds) to the reference time classifies `"orange"`
(DueSoon, inclusive threshold), any strictly larger gap classifies
`"blue"` (DueLater), and a due date strictly before the reference time
classifies `"red"` (Overdue). -/
theorem classify_boundary (t : Task) (now d : DateTime)
    (hc : t.completed = false) (hd : t.due_date = some d) :
    (d.toSecs - now.toSecs = 2592000 → get_task_color t now = "orange")
    ∧ (2592000 < d.toSecs - now.toSecs → get_task_color t now = "blue")
    ∧ (d.toSecs < now.toSecs → get_task_color t now = "red") := by
  refine ⟨fun h => ?_, fun h => ?_, fun h => ?_⟩
  · have h1 : ¬ d.toSecs < now.toSecs := by omega
    have h2 : d.toSecs - now.toSecs ≤ 2592000 := by omega
    simp [get_task_color, hc, hd, h1, h2]
  · have h1 : ¬ d.toSecs < now.toSecs := by omega
    have h2 : ¬ d.toSecs - now.toSecs ≤ 2592000 := by omega
    simp [get_task_color, hc, hd, h1, h2]
  · simp [get_task_color, hc, hd, h]

/-- Witness for C3: relative to 2025-01-01, a task due 2025-01-31 is
orange, one due a second later is blue, one due 2024-12-31 is red. -/
theorem classify_boundary_witness :
    get_task_color dueSoonTask refTime = "orange"
    ∧ get_task_color dueLaterTask refTime = "blue"
    ∧ get_task_color overdueTask refTime = "red" :=
  ⟨(classify_boundary dueSoonTask refTime ⟨2025, 1, 31, 0, 0, 0⟩ rfl rfl).1
      (by decide),
   (classify_boundary dueLaterTask refTime ⟨2025, 1, 31, 0, 0, 1⟩ rfl rfl).2.1
      (by decide),
   (classify_boundary overdueTask refTime ⟨2024, 12, 31, 0, 0, 0⟩ rfl rfl).2.2
      (by decide)⟩

/-- Claim C7: `update_priority` stores any value in {1,2,3} and reports
success; any other integer is rejected — the priority is unchanged and a
failure is reported — and no other field changes in either case. -/
theorem update_priority_spec (t : Task) (p : Int) :
    (ValidPriority p →
      (t.update_priority p).1.priority = p ∧ (t.update_priority p).2 = true)
    ∧ (¬ ValidPriority p →
      (t.update_priority p).1.priority = t.priority
        ∧ (t.update_priority p).2 = false)
    ∧ (t.update_priority p).1.description = t.description
    ∧ (t.update_priority p).1.completed = t.completed
    ∧ (t.update_priority p).1.due_date = t.due_date
    ∧ (t.update_priority p).1.additional_info = t.additional_info
    ∧ (t.update_priority p).1.created_date = t.created_date
    ∧ (t.update_priority p).1.deleted = t.deleted := by
  by_cases h : ValidPriority p
  · rw [Task.update_priority, if_pos ((priority_mem_iff p).2 h)]
    refine ⟨fun _ => ⟨rfl, rfl⟩, fun hn => absurd h hn, rfl, rfl, rfl, rfl, rfl, rfl⟩
  · have hb : ¬ PRIORITY_LEVELS.any (fun kv => kv.1 == p) = true := by
      intro hx; exact h ((priority_mem_iff p).1 hx)
    rw [Task.update_priority, if_neg hb]
    exact ⟨fun hv => absurd hv h, fun _ => ⟨rfl, rfl⟩, rfl, rfl, rfl, rfl, rfl, rfl⟩

/-- Witness for C7: `update_priority 3` stores 3; `update_priority 7` is
rejected, leaving the priority at 2 and reporting failure. -/
theorem update_priority_spec_witness :
    (baseTask.update_priority 3).1.priority = 3
    ∧ (baseTask.update_priority 7).1.priority = baseTask.priority
    ∧ (baseTask.update_priority 7).2 = false :=
  ⟨((update_priority_spec baseTask 3).1 (by decide)).1,
   ((update_priority_spec baseTask 7).2.1 (by decide)).1,
   ((update_priority_spec baseTask 7).2.1 (by decide)).2⟩

/-- Claim C8: `update_description` with text that strips to empty leaves
the task unchanged and reports failure; text that is non-empty after
stripping is stored (unstripped) with success. -/
theorem update_description_spec (t : Task) (s : String) :
    (pyStrip s = "" →
      (t.update_description s).1 = t ∧ (t.update_description s).2 = false)
    ∧ (pyStrip s ≠ "" →
      (t.update_description s).1.description = s
        ∧ (t.update_description s).2 = true) := by
  by_cases h : pyStrip s = "" <;>
    simp [Task.update_description, h]

/-- Witness for C8: `""` and `"   "` are rejected without change;
`"Buy milk"` is stored. -/
theorem update_description_spec_witness :
    (baseTask.update_description "").1 = baseTask
    ∧ (baseTask.update_description "   ").1 = baseTask
    ∧ (baseTask.update_description "   ").2 = false
    ∧ (baseTask.update_description "Buy milk").1.description = "Buy milk" :=
  ⟨((update_description_spec baseTask "").1 (by decide)).1,
   ((update_description_spec baseTask "   ").1 (by decide)).1,
   ((update_description_spec baseTask "   ").1 (by decide)).2,
   ((update_description_spec baseTask "Buy milk").2 (by decide)).1⟩

/-- Claim C9: `reschedule` stores the parsed date on a successful parse;
on a parse failure it reports the invalid-format condition and leaves the
task unchanged; and it can never turn a present due date into an absent
one. -/
theorem reschedule_spec (t : Task) (s : String) :
    (∀ d, strptimeDMY s = some d →
      (t.reschedule s).1.due_date = some d ∧ (t.reschedule s).2 = true)
    ∧ (strptimeDMY s = none →
      (t.reschedule s).1 = t ∧ (t.reschedule s).2 = false)
    ∧ (∀ d0, t.due_date = some d0 → (t.reschedule s).1.due_date ≠ none) := by
  refine ⟨fun d hd => ?_, fun hn => ?_, fun d0 h0 => ?_⟩
  · simp [Task.reschedule, hd]
  · simp [Task.reschedule, hn]
  · rcases hp : strptimeDMY s with _ | d <;> simp [Task.reschedule, hp, h0]

/-- Witness for C9: `"15/08/25"` parses and is stored; `"99/99/99"` fails
and leaves the task — including its present due date — unchanged. -/
theorem reschedule_spec_witness :
    (baseTask.reschedule "15/08/25").1.due_date = some ⟨2025, 8, 15, 0, 0, 0⟩
    ∧ (dueSoonTask.reschedule "99/99/99").1 = dueSoonTask
    ∧ (dueSoonTask.reschedule "99/99/99").1.due_date ≠ none :=
  ⟨((reschedule_spec baseTask "15/08/25").1 ⟨2025, 8, 15, 0, 0, 0⟩ (by decide)).1,
   ((reschedule_spec dueSoonTask "99/99/99").2.1 (by decide)).1,
   (reschedule_spec dueSoonTask "99/99/99").2.2 ⟨2025, 1, 31, 0, 0, 0⟩ rfl⟩

/-- Claim C10: `from_dict` cannot build a task when the
`additional_info` key is missing (the lookup raises `KeyError`), while
`due_date` and `deleted` really are optional: with `additional_info`
present, a record lacking both still deserializes, with no due date and
`deleted = false`. -/
theorem from_dict_requires_additional_info (now : DateTime) (r : TaskRecord)
    (h : r.additional_info = none) :
    Task.from_dict now r = none
    ∧ (∀ desc comp prio info,
        Task.from_dict now ⟨some desc, some comp, none, some prio, some info, none, none⟩
          = some ⟨desc, comp, none, prio, info, now, false⟩) := by
  constructor
  · rcases h1 : parseOptDate r.due_date with _ | due <;>
      rcases h2 : parseOptDate r.created_date with _ | created <;>
        rcases h3 : r.description with _ | desc <;>
          rcases h4 : r.completed with _ | comp <;>
            rcases h5 : r.priority with _ | prio <;>
              simp [Task.from_dict, h1, h2, h3, h4, h5, h]
  · intro desc comp prio info; rfl

/-- Witness for C10: a record with `description`, `completed` and
`priority` but no `additional_info` key fails to deserialize; adding the
key (even with value `null`) makes the same record deserialize with
`due_date` absent and `deleted = false`. -/
theorem from_dict_requires_additional_info_witness :
    Task.from_dict refTime ⟨some "x", some false, none, some 2, none, none, none⟩ = none
    ∧ Task.from_dict refTime ⟨some "x", some false, none, some 2, some none, none, none⟩
      = some ⟨"x", false, none, 2, none, refTime, false⟩ :=
  ⟨(from_dict_requires_additional_info refTime
      ⟨some "x", some false, none, some 2, none, none, none⟩ rfl).1,
   (from_dict_requires_additional_info refTime
      ⟨some "x", some false, none, some 2, none, none, none⟩ rfl).2 "x" false 2 none⟩

/-- Claim C6 counterexample: a structurally well-formed document whose
single record is the empty object has zero well-formed records, yet
`load_tasks` does not return the empty collection — the `KeyError` from
`Task.from_dict` is not caught and the call fails. -/
theorem load_tasks_malformed_record_fatal :
    load_tasks refTime (Document.records [⟨none, none, none, none, none, none, none⟩]) = none
    ∧ load_tasks refTime (Document.records [⟨none, none, none, none, none, none, none⟩])
      ≠ some [] := by
  exact ⟨rfl, by decide⟩

/-- Claim C6 (amended): a missing file, a document that fails JSON
decoding, and a decoded document with zero records all yield the empty
collection without a fatal error. -/
theorem load_tasks_absorbs_missing_and_corrupt (now : DateTime) :
    load_tasks now Document.missing = some []
    ∧ load_tasks now Document.corrupt = some []
    ∧ load_tasks now (Document.records []) = some [] :=
  ⟨rfl, rfl, rfl⟩

/-- A stored record carrying priority 7, everything else well-formed. -/
def priority7Record : TaskRecord :=
  ⟨some "t", some false, none, some 7, some none, some "01/01/25", some false⟩

/-- Claim C5 counterexample: deserializing a stored record whose priority
is 7 yields a task with priority 7 — neither `from_dict` nor `__init__`
validates the field, so the invariant is not established at every way a
task comes into existence. -/
theorem from_dict_priority_not_validated :
    (Task.from_dict refTime priority7Record).map Task.priority = some 7
    ∧ ¬ ValidPriority 7 := by decide

/-- Claim C5 (amended): priority ∈ {1,2,3} is preserved by every task
operation — `update_priority` rejects any value outside the set and
leaves the field unchanged, and no other operation touches the field —
but it is not established at construction: `__init__` and `from_dict`
accept any integer priority unvalidated. -/
theorem priority_invariant_preserved (t : Task) (p : Int) (s1 s2 s3 : String)
    (h : ValidPriority t.priority) :
    ValidPriority (t.update_priority p).1.priority
    ∧ t.mark_completed.1.priority = t.priority
    ∧ (t.reschedule s1).1.priority = t.priority
    ∧ (t.update_description s2).1.priority = t.priority
    ∧ (t.update_additional_info s3).priority = t.priority := by
  refine ⟨?_, ?_, ?_, ?_, rfl⟩
  · by_cases hp : ValidPriority p
    · rw [Task.update_priority, if_pos ((priority_mem_iff p).2 hp)]; exact hp
    · have hb : ¬ PRIORITY_LEVELS.any (fun kv => kv.1 == p) = true :=
        fun hx => hp ((priority_mem_iff p).1 hx)
      rw [Task.update_priority, if_neg hb]; exact h
  · cases hc : t.completed <;> simp [Task.mark_completed, hc]
  · rcases hr : strptimeDMY s1 with _ | d <;> simp [Task.reschedule, hr]
  · by_cases hs : pyStrip s2 = "" <;> simp [Task.update_description, hs]

/-- Witness for C5 (amended): a task with priority 2 still has a valid
priority after a rejected `update_priority 7`. -/
theorem priority_invariant_preserved_witness :
    ValidPriority (baseTask.update_priority 7).1.priority :=
  (priority_invariant_preserved baseTask 7 "a" "b" "c" (by decide)).1

/-- The key comparison of `sort_tasks` is transitive. -/
lemma taskKeyLe_trans (now : DateTime) (a b c : Task)
    (hab : taskKeyLe now a b = true) (hbc : taskKeyLe now b c = true) :
    taskKeyLe now a c = true := by
  simp only [taskKeyLe, decide_eq_true_eq] at hab hbc ⊢
  omega

/-- The key comparison of `sort_tasks` is total. -/
lemma taskKeyLe_total (now : DateTime) (a b : Task) :
    (taskKeyLe now a b || taskKeyLe now b a) = true := by
  simp only [taskKeyLe, Bool.or_eq_true, decide_eq_true_eq]
  omega

/-- Claim C4: `sort_tasks` returns a permutation of its input ordered by
the color rank (red 0, orange 1, blue 2, white 3, green 4 — i.e. Overdue,
DueSoon, DueLater, NoDueDate, Completed) and, within equal rank, by
priority descending; and it is stable: two tasks with equal
classification and equal priority keep their input relative order. -/
theorem sort_tasks_spec (now : DateTime) (tasks : List Task) :
    (sort_tasks now tasks).Perm tasks
    ∧ List.Pairwise (fun a b => colorRank now a < colorRank now b
        ∨ (colorRank now a = colorRank now b ∧ b.priority ≤ a.priority))
      (sort_tasks now tasks)
    ∧ (∀ a b : Task, get_task_color a now = get_task_color b now →
        a.priority = b.priority → [a, b].Sublist tasks →
        [a, b].Sublist (sort_tasks now tasks)) := by
  refine ⟨List.mergeSort_perm tasks _, ?_, ?_⟩
  · have hs := List.sorted_mergeSort (taskKeyLe_trans now) (taskKeyLe_total now) tasks
    refine hs.imp ?_
    intro a b hab
    simp only [taskKeyLe, taskKey, decide_eq_true_eq] at hab
    rcases hab with hlt | ⟨heq, hle⟩
    · exact Or.inl hlt
    · exact Or.inr ⟨heq, by omega⟩
  · intro a b hcol hpri hsub
    refine List.pair_sublist_mergeSort (taskKeyLe_trans now) (taskKeyLe_total now) ?_ hsub
    have hrank : colorRank now a = colorRank now b := by
      unfold colorRank; rw [hcol]
    simp only [taskKeyLe, taskKey, decide_eq_true_eq, hrank, hpri]
    exact Or.inr ⟨trivial, le_refl _⟩

/-- Two tied tasks (same classification, same priority) distinguished by
description, for the stability witness. -/
def tieTaskA : Task := ⟨"a", false, none, 2, none, refTime, false⟩

/-- Second task of the tied pair for the stability witness. -/
def tieTaskB : Task := ⟨"b", false, none, 2, none, refTime, false⟩

/-- Witness for C4: two tied tasks keep their input relative order in the
sorted output. -/
theorem sort_tasks_spec_witness :
    [tieTaskA, tieTaskB].Sublist (sort_tasks refTime [tieTaskA, tieTaskB]) :=
  (sort_tasks_spec refTime [tieTaskA, tieTaskB]).2.2 tieTaskA tieTaskB rfl rfl
    (List.Sublist.refl _)

/-- Every month length is at most 31. -/
lemma daysInMonth_le (y m : Nat) : daysInMonth y m ≤ 31 := by
  unfold daysInMonth
  split
  · split <;> omega
  · split <;> omega

/-- `pad2` of a two-digit number renders exactly its two decimal
digits. -/
lemma pad2_digits :
    ∀ n, n < 100 → (pad2 n).toList.map digitVal = [some (n / 10), some (n % 10)] := by
  decide

/-- Character-level decomposition of `pad2 n` for `n < 100`. -/
lemma pad2_two_chars (n : Nat) (hn : n < 100) :
    ∃ c1 c2, (pad2 n).toList = [c1, c2]
      ∧ digitVal c1 = some (n / 10) ∧ digitVal c2 = some (n % 10) := by
  have h := pad2_digits n hn
  rcases hl : (pad2 n).toList with _ | ⟨c1, l1⟩
  · rw [hl] at h; simp at h
  · rcases l1 with _ | ⟨c2, l2⟩
    · rw [hl] at h; simp at h
    · rcases l2 with _ | ⟨c3, l3⟩
      · rw [hl] at h
        simp only [List.map_cons, List.map_nil, List.cons.injEq, and_true] at h
        exact ⟨c1, c2, rfl, h.1, h.2⟩
      · rw [hl] at h; simp at h

/-- `parseComp` consumes exactly the two digits of `pad2 n` and returns
`n`, whatever follows. -/
lemma parseComp_pad2 (n : Nat) (hn : n < 100) (rest : List Char) :
    parseComp ((pad2 n).toList ++ rest) = some (n, rest) := by
  obtain ⟨c1, c2, hl, h1, h2⟩ := pad2_two_chars n hn
  rw [hl]
  have hn10 : 10 * (n / 10) + n % 10 = n := by omega
  simp [parseComp, h1, h2, hn10]

/-- Formatting a valid midnight date whose year lies in 1969–2068 with
`"%d/%m/%y"` and parsing it back is the identity. -/
lemma strptime_strftime (d : DateTime) (hv : ValidDate d) (hm : MidnightDate d)
    (hy1 : 1969 ≤ d.year) (hy2 : d.year ≤ 2068) :
    strptimeDMY (strftimeDMY d) = some d := by
  obtain ⟨y, mo, da, hh, mi, se⟩ := d
  obtain ⟨e1, e2, e3⟩ := hm
  simp only at e1 e2 e3
  subst e1; subst e2; subst e3
  obtain ⟨v1, v2, v3, v4⟩ := hv
  simp only at v1 v2 v3 v4 hy1 hy2
  have hda : da < 100 := by have := daysInMonth_le y mo; omega
  have hmo : mo < 100 := by omega
  have hyy : y % 100 < 100 := by omega
  have hsplit : (strftimeDMY ⟨y, mo, da, 0, 0, 0⟩).toList
      = (pad2 da).toList ++ '/' :: ((pad2 mo).toList ++ '/' :: (pad2 (y % 100)).toList) := by
    simp [strftimeDMY, String.toList, String.data_append]
  obtain ⟨c1, c2, hl, h1, h2⟩ := pad2_two_chars (y % 100) hyy
  have hyrec : (if 10 * (y % 100 / 10) + y % 100 % 10 ≤ 68
      then 2000 + (10 * (y % 100 / 10) + y % 100 % 10)
      else 1900 + (10 * (y % 100 / 10) + y % 100 % 10)) = y := by
    split <;> omega
  simp only [strptimeDMY, hsplit, parseComp_pad2 da hda, parseComp_pad2 mo hmo, hl, h1, h2]
  rw [hyrec]
  rw [if_pos (show 1 ≤ mo ∧ mo ≤ 12 ∧ 1 ≤ da ∧ da ≤ daysInMonth y mo from ⟨v1, v2, v3, v4⟩)]

/-- A task whose `created_date` carries a time of day — exactly what
`datetime.now()` stores at construction. -/
def noonTask : Task :=
  ⟨"meeting", false, none, 2, none, ⟨2025, 5, 1, 12, 0, 0⟩, false⟩

/-- Claim C1 counterexample: the round trip is not the identity on every
task: `strftime("%d/%m/%y")` drops the time of day, so a task created at
noon comes back with its `created_date` collapsed to midnight. -/
theorem roundtrip_fails_on_time_of_day :
    Task.from_dict refTime (Task.to_dict noonTask) ≠ some noonTask
    ∧ (Task.from_dict refTime (Task.to_dict noonTask)).map Task.created_date
      = some ⟨2025, 5, 1, 0, 0, 0⟩ := by
  decide

/-- Claim C1 (amended): `from_dict (to_dict t)` reproduces `t` in every
field — description, completed, due_date, priority, additional_info,
created_date, deleted — provided the task's `created_date` and (when
present) `due_date` have no time-of-day component and a year in
1969–2068, the range within which the two-digit `%y` format is
lossless. -/
theorem to_dict_from_dict_roundtrip (t : Task) (now : DateTime)
    (h1 : ValidDate t.created_date) (h2 : MidnightDate t.created_date)
    (h3 : 1969 ≤ t.created_date.year) (h4 : t.created_date.year ≤ 2068)
    (h5 : ∀ d, t.due_date = some d →
      ValidDate d ∧ MidnightDate d ∧ 1969 ≤ d.year ∧ d.year ≤ 2068) :
    Task.from_dict now (Task.to_dict t) = some t := by
  obtain ⟨desc, comp, due, prio, info, created, del⟩ := t
  simp only at h1 h2 h3 h4 h5
  have hcr := strptime_strftime created h1 h2 h3 h4
  have hcrne : strftimeDMY created ≠ "" := by
    intro he; rw [he] at hcr; exact Option.noConfusion hcr
  rcases due with _ | d
  · simp [Task.from_dict, Task.to_dict, parseOptDate, hcrne, hcr, Task.init]
  · obtain ⟨g1, g2, g3, g4⟩ := h5 d rfl
    have hdr := strptime_strftime d g1 g2 g3 g4
    have hdne : strftimeDMY d ≠ "" := by
      intro he; rw [he] at hdr; exact Option.noConfusion hdr
    simp [Task.from_dict, Task.to_dict, parseOptDate, hcrne, hcr, hdne, hdr,
      Task.init]

/-- A task exercising every field, with midnight in-range dates
(including a leap day) for the round-trip witness. -/
def fullTask : Task :=
  ⟨"shop", true, some ⟨2026, 2, 28, 0, 0, 0⟩, 3, some "notes",
    ⟨2024, 2, 29, 0, 0, 0⟩, true⟩

/-- Witness for C1 (amended): a task with every field populated — leap
day creation date, future due date, priority 3, info text, both flags
set — survives the round trip exactly. -/
theorem to_dict_from_dict_roundtrip_witness :
    Task.from_dict refTime (Task.to_dict fullTask) = some fullTask :=
  to_dict_from_dict_roundtrip fullTask refTime (by decide) (by decide)
    (by decide) (by decide)
    (fun d hd => by
      injection hd with h
      subst h
      exact ⟨by decide, by decide, by decide, by decide⟩)

end TaskApp
